import Mathlib

/-!
Verification of the plugin-host core of the RPI_Home_System repository.

The development shallowly embeds the Rust sources:
  * `src/plugin_api/src/lib.rs` — the `Envelope` wire type (`Kind`, `RpcError`);
  * `src/core/src/ipc.rs` — line-delimited JSON codec, modelled at the
    JSON-tree level (`serializeEnvelope` / `deserializeEnvelope` mirror the
    serde derive semantics for the `Envelope` struct);
  * `src/core/src/plugin_host.rs` — manifest discovery, the handshake of
    `start_plugin`, the per-plugin reader loop, and the `call` facade;
  * `src/core/src/services/timer.rs` — the timer task spawned by
    `timer.set_interval` (the zero-period panic of `tokio::time::interval`
    is modelled as an `Except.error`, per tokio's documented assertion).

Stateful Rust code becomes explicit state passing: `ReaderState` collects the
mutable state visible to the reader loop (the shared pending-response table,
the loop-local subscription set, and the handle fields `status` and
`subscriptions` that the loop can never touch), and `readerStep` is one
iteration of the loop in `PluginManager::start_plugin`.
-/

/-- JSON values, the model of `serde_json::Value`.  Numbers are modelled as
integers (`Int`), which covers every number the host itself produces. -/
inductive Json where
  | null : Json
  | bool (b : Bool) : Json
  | num (n : Int) : Json
  | str (s : String) : Json
  | arr (elems : List Json) : Json
  | obj (fields : List (String × Json)) : Json

mutual

/-- Decidable structural equality for `Json`, mirroring `serde_json::Value`'s
`PartialEq`. -/
def Json.decEq : (a b : Json) → Decidable (a = b)
  | .null, .null => isTrue rfl
  | .null, .bool _ => isFalse (fun h => Json.noConfusion h)
  | .null, .num _ => isFalse (fun h => Json.noConfusion h)
  | .null, .str _ => isFalse (fun h => Json.noConfusion h)
  | .null, .arr _ => isFalse (fun h => Json.noConfusion h)
  | .null, .obj _ => isFalse (fun h => Json.noConfusion h)
  | .bool _, .null => isFalse (fun h => Json.noConfusion h)
  | .bool a, .bool b =>
    if h : a = b then isTrue (by rw [h]) else isFalse (fun hh => h (Json.bool.inj hh))
  | .bool _, .num _ => isFalse (fun h => Json.noConfusion h)
  | .bool _, .str _ => isFalse (fun h => Json.noConfusion h)
  | .bool _, .arr _ => isFalse (fun h => Json.noConfusion h)
  | .bool _, .obj _ => isFalse (fun h => Json.noConfusion h)
  | .num _, .null => isFalse (fun h => Json.noConfusion h)
  | .num _, .bool _ => isFalse (fun h => Json.noConfusion h)
  | .num a, .num b =>
    if h : a = b then isTrue (by rw [h]) else isFalse (fun hh => h (Json.num.inj hh))
  | .num _, .str _ => isFalse (fun h => Json.noConfusion h)
  | .num _, .arr _ => isFalse (fun h => Json.noConfusion h)
  | .num _, .obj _ => isFalse (fun h => Json.noConfusion h)
  | .str _, .null => isFalse (fun h => Json.noConfusion h)
  | .str _, .bool _ => isFalse (fun h => Json.noConfusion h)
  | .str _, .num _ => isFalse (fun h => Json.noConfusion h)
  | .str a, .str b =>
    if h : a = b then isTrue (by rw [h]) else isFalse (fun hh => h (Json.str.inj hh))
  | .str _, .arr _ => isFalse (fun h => Json.noConfusion h)
  | .str _, .obj _ => isFalse (fun h => Json.noConfusion h)
  | .arr _, .null => isFalse (fun h => Json.noConfusion h)
  | .arr _, .bool _ => isFalse (fun h => Json.noConfusion h)
  | .arr _, .num _ => isFalse (fun h => Json.noConfusion h)
  | .arr _, .str _ => isFalse (fun h => Json.noConfusion h)
  | .arr a, .arr b =>
    match Json.decEqList a b with
    | isTrue h => isTrue (by rw [h])
    | isFalse h => isFalse (fun hh => h (Json.arr.inj hh))
  | .arr _, .obj _ => isFalse (fun h => Json.noConfusion h)
  | .obj _, .null => isFalse (fun h => Json.noConfusion h)
  | .obj _, .bool _ => isFalse (fun h => Json.noConfusion h)
  | .obj _, .num _ => isFalse (fun h => Json.noConfusion h)
  | .obj _, .str _ => isFalse (fun h => Json.noConfusion h)
  | .obj _, .arr _ => isFalse (fun h => Json.noConfusion h)
  | .obj a, .obj b =>
    match Json.decEqFields a b with
    | isTrue h => isTrue (by rw [h])
    | isFalse h => isFalse (fun hh => h (Json.obj.inj hh))

/-- Decidable equality for lists of `Json`. -/
def Json.decEqList : (a b : List Json) → Decidable (a = b)
  | [], [] => isTrue rfl
  | [], _ :: _ => isFalse (fun h => List.noConfusion h)
  | _ :: _, [] => isFalse (fun h => List.noConfusion h)
  | x :: xs, y :: ys =>
    match Json.decEq x y with
    | isFalse h => isFalse (fun hh => h (List.cons.inj hh).1)
    | isTrue h₁ =>
      match Json.decEqList xs ys with
      | isTrue h₂ => isTrue (by rw [h₁, h₂])
      | isFalse h => isFalse (fun hh => h (List.cons.inj hh).2)

/-- Decidable equality for JSON object field lists. -/
def Json.decEqFields : (a b : List (String × Json)) → Decidable (a = b)
  | [], [] => isTrue rfl
  | [], _ :: _ => isFalse (fun h => List.noConfusion h)
  | _ :: _, [] => isFalse (fun h => List.noConfusion h)
  | (k₁, v₁) :: xs, (k₂, v₂) :: ys =>
    if hk : k₁ = k₂ then
      match Json.decEq v₁ v₂ with
      | isFalse h =>
        isFalse (fun hh => h (congrArg Prod.snd (List.cons.inj hh).1))
      | isTrue hv =>
        match Json.decEqFields xs ys with
        | isTrue ht => isTrue (by rw [hk, hv, ht])
        | isFalse h => isFalse (fun hh => h (List.cons.inj hh).2)
    else
      isFalse (fun hh => hk (congrArg Prod.fst (List.cons.inj hh).1))

end

instance : DecidableEq Json := Json.decEq

namespace Json

/-- `Value::is_null`. -/
def isNull : Json → Bool
  | .null => true
  | _ => false

/-- Lookup of a field by name in a JSON object's field list (first match),
the access path of `serde_json::Map::get`. -/
def lookupField : List (String × Json) → String → Option Json
  | [], _ => none
  | (k, v) :: rest, key => if k = key then some v else lookupField rest key

/-- `Value::get(key)` on an object: first field with the given name. -/
def getKey : Json → String → Option Json
  | .obj fields, key => lookupField fields key
  | _, _ => none

/-- `Value::as_str`. -/
def asStr : Json → Option String
  | .str s => some s
  | _ => none

/-- `Value::as_u64`: a number that is a non-negative integer. -/
def asU64 : Json → Option Nat
  | .num n => if 0 ≤ n then some n.toNat else none
  | _ => none

/-- `Value::as_array`. -/
def asArr : Json → Option (List Json)
  | .arr xs => some xs
  | _ => none

end Json

/-- `plugin_api::Kind` — envelope discriminator. -/
inductive Kind where
  | request : Kind
  | response : Kind
  | event : Kind
deriving DecidableEq

/-- `plugin_api::RpcError` — `{code: i32, message: String}`. -/
structure RpcError where
  code : Int
  message : String
deriving DecidableEq

/-- `plugin_api::Envelope` — the single wire message type.  Field order is the
Rust declaration order: id, kind, method, params, result, error, topic,
payload. -/
structure Envelope where
  id : Option String
  kind : Kind
  method : Option String
  params : Option Json
  result : Option Json
  error : Option RpcError
  topic : Option String
  payload : Option Json
deriving DecidableEq

/-! ### Envelope codec

`src/core/src/ipc.rs` frames one envelope per line: `write_envelope` emits
`serde_json::to_string(env)` followed by a line feed, `read_envelope` reads a
line and runs `serde_json::from_str`.  The codec is modelled at the JSON-tree
level: `serializeEnvelope` is the tree `to_string` prints, and
`deserializeEnvelope` is the serde-derive decoding of a parsed tree (fields
looked up by name, a missing or null `Option` field is `None`, `kind`
required, unknown fields ignored). -/

/-- serde serialization of `Kind` (`rename_all = "lowercase"`). -/
def encodeKind : Kind → Json
  | .request => .str "request"
  | .response => .str "response"
  | .event => .str "event"

/-- serde serialization of an `Option<String>` field: `None` is null. -/
def encodeOptStr : Option String → Json
  | none => .null
  | some s => .str s

/-- serde serialization of an `Option<Value>` field: `None` is null and
`Some v` is `v` itself — so `Some(Value::Null)` also prints as null. -/
def encodeOptVal : Option Json → Json
  | none => .null
  | some v => v

/-- serde serialization of `RpcError`. -/
def encodeRpcError (e : RpcError) : Json :=
  .obj [("code", .num e.code), ("message", .str e.message)]

/-- serde serialization of an `Option<RpcError>` field. -/
def encodeOptErr : Option RpcError → Json
  | none => .null
  | some e => encodeRpcError e

/-- The field list of a serialized `Envelope`, in Rust declaration order.
All eight fields are always emitted (no `skip_serializing_if`). -/
def envelopeFields (e : Envelope) : List (String × Json) :=
  [("id", encodeOptStr e.id),
   ("kind", encodeKind e.kind),
   ("method", encodeOptStr e.method),
   ("params", encodeOptVal e.params),
   ("result", encodeOptVal e.result),
   ("error", encodeOptErr e.error),
   ("topic", encodeOptStr e.topic),
   ("payload", encodeOptVal e.payload)]

/-- `serde_json::to_string(env)` as a JSON tree. -/
def serializeEnvelope (e : Envelope) : Json :=
  .obj (envelopeFields e)

/-- serde decoding of an `Option<String>` field from its looked-up value:
missing or null gives `None`, a string gives `Some`, anything else is a
deserialization error. -/
def decodeOptStrVal : Option Json → Option (Option String)
  | none => some none
  | some .null => some none
  | some (.str s) => some (some s)
  | some _ => none

/-- serde decoding of the required `kind` field. -/
def decodeKindVal : Option Json → Option Kind
  | some (.str s) =>
    if s = "request" then some .request
    else if s = "response" then some .response
    else if s = "event" then some .event
    else none
  | _ => none

/-- serde decoding of an `Option<Value>` field: missing or null gives
`None`; any other JSON value is accepted verbatim (never an error, because
`Value` admits every tree). -/
def decodeOptValVal : Option Json → Option Json
  | none => none
  | some v => if v.isNull then none else some v

/-- serde decoding of an `Option<RpcError>` field. -/
def decodeOptErrVal : Option Json → Option (Option RpcError)
  | none => some none
  | some .null => some none
  | some (.obj fields) =>
    match Json.lookupField fields "code", Json.lookupField fields "message" with
    | some (.num c), some (.str m) => some (some ⟨c, m⟩)
    | _, _ => none
  | some _ => none

/-- `serde_json::from_str::<Envelope>` on a parsed JSON tree. -/
def deserializeEnvelope : Json → Option Envelope
  | .obj fields => do
    let id ← decodeOptStrVal (Json.lookupField fields "id")
    let kind ← decodeKindVal (Json.lookupField fields "kind")
    let method ← decodeOptStrVal (Json.lookupField fields "method")
    let error ← decodeOptErrVal (Json.lookupField fields "error")
    let topic ← decodeOptStrVal (Json.lookupField fields "topic")
    pure { id := id, kind := kind, method := method,
           params := decodeOptValVal (Json.lookupField fields "params"),
           result := decodeOptValVal (Json.lookupField fields "result"),
           error := error, topic := topic,
           payload := decodeOptValVal (Json.lookupField fields "payload") }
  | _ => none

/-! ### Generic association-list operations

`plugin_host.rs` keeps its maps in `HashMap`s; they are modelled as
association lists whose observable behaviour (`get` / `insert` / `remove`)
matches the hash map's. -/

/-- `HashMap::get`: first binding for the key. -/
def assocLookup {β : Type} : List (String × β) → String → Option β
  | [], _ => none
  | (k, v) :: rest, key => if k = key then some v else assocLookup rest key

/-- `HashMap::remove`: drop every binding for the key. -/
def assocRemove {β : Type} (m : List (String × β)) (key : String) : List (String × β) :=
  m.filter (fun e => e.1 != key)

/-- `HashMap::insert`: replace any existing binding for the key. -/
def assocInsert {β : Type} (m : List (String × β)) (key : String) (v : β) : List (String × β) :=
  assocRemove m key ++ [(key, v)]

/-! ### Manifest discovery (`PluginManager::discover`) -/

/-- `PluginManifest`, parsed from `plugin.toml`. -/
structure PluginManifest where
  name : String
  id : String
  version : String
  apiVersion : String
  execName : String
  permissions : List String
deriving DecidableEq

/-- `PluginManager::discover`, driven by the manifest parse results of the
subdirectories of the plugins directory, in enumeration order (directories
without a `plugin.toml` are skipped by the loop and therefore do not appear
in the input).  A parse failure aborts the whole discovery (`toml::from_str`
followed by `?`); a parsed manifest is inserted into the map keyed by its
`id` via `HashMap::insert`. -/
def discoverFrom (acc : List (String × PluginManifest)) :
    List (Except String PluginManifest) → Except String (List (String × PluginManifest))
  | [] => .ok acc
  | .error e :: _ => .error e
  | .ok mf :: rest => discoverFrom (assocInsert acc mf.id mf) rest

/-- The plugin map produced by `PluginManager::discover`. -/
def discover (entries : List (Except String PluginManifest)) :
    Except String (List (String × PluginManifest)) :=
  discoverFrom [] entries

/-! ### Envelopes written by the host -/

/-- `json!({"ok": true})`. -/
def okResultJson : Json := .obj [("ok", .bool true)]

/-- The `{result: {ok: true}}` response the host writes for `plugin.init`,
`plugin.start` and the built-in service methods. -/
def responseOk (id : Option String) : Envelope :=
  { id := id, kind := .response, method := none, params := none,
    result := some okResultJson, error := none, topic := none, payload := none }

/-- An error response as built in the unknown-method branch. -/
def responseErr (id : Option String) (code : Int) (message : String) : Envelope :=
  { id := id, kind := .response, method := none, params := none, result := none,
    error := some ⟨code, message⟩, topic := none, payload := none }

/-- The `core.hello` event sent right after spawning the child. -/
def helloEvent : Envelope :=
  { id := none, kind := .event, method := none, params := none, result := none,
    error := none, topic := some "core.hello",
    payload := some (.obj
      [("api_version", .str "1"),
       ("services", .arr [.str "log", .str "event", .str "timer", .str "storage"])]) }

/-- The `system.ready` event sent after acknowledging `plugin.start`. -/
def readyEvent : Envelope :=
  { id := none, kind := .event, method := none, params := none, result := none,
    error := none, topic := some "system.ready", payload := none }

/-! ### Reader-loop state -/

/-- Parameters of `timer.set_interval` (`services/timer.rs`). -/
structure TimerParams where
  id : String
  millis : Nat
deriving DecidableEq

/-- `PluginStatus` exactly as declared in `plugin_host.rs` (lines 36–40):
the enum has only these two variants — there is no `Stopped`. -/
inductive PluginStatus where
  | Discovered : PluginStatus
  | Running : PluginStatus
deriving DecidableEq

/-- The mutable state visible around one running plugin's reader loop.

* `pending` — the shared pending-response table (`ArcPending`); each entry
  maps a request id to the liveness of the oneshot receiver (`true`: the
  awaiting caller still exists, `false`: it was dropped).
* `subsLoop` — the subscription set created fresh inside `start_plugin`
  (line 246) and moved into the reader task.
* `handleSubs` — the handle's `subscriptions` field; the reader task holds
  no reference to it.
* `status` — the handle's `status` field; the reader task holds no
  reference to it either.
* `delivered` — responses successfully sent to awaiting callers.
* `logs` — `(level, message)` pairs forwarded to the logging sink.
* `timers` — parameters of every timer task spawned. -/
structure ReaderState where
  pending : List (String × Bool)
  subsLoop : List String
  handleSubs : List String
  status : PluginStatus
  delivered : List (String × Envelope)
  logs : List (String × String)
  timers : List TimerParams
deriving DecidableEq

/-- `HashSet::insert` on the subscription set. -/
def insertTopic (subs : List String) (t : String) : List String :=
  if t ∈ subs then subs else subs ++ [t]

/-- The `event.subscribe` topic loop: insert every array element that is a
string. -/
def subscribeTopics (subs : List String) : List Json → List String
  | [] => subs
  | j :: rest =>
    match j.asStr with
    | some t => subscribeTopics (insertTopic subs t) rest
    | none => subscribeTopics subs rest

/-- The `log.write` branch's effect on state: forward `(level, message)` to
the log sink when both are present strings. -/
def logUpdate (s : ReaderState) : Option Json → ReaderState
  | none => s
  | some params =>
    match (params.getKey "level").bind Json.asStr,
          (params.getKey "message").bind Json.asStr with
    | some level, some message => { s with logs := s.logs ++ [(level, message)] }
    | _, _ => s

/-- The `event.subscribe` branch's effect: union the topics into the
loop-local subscription set. -/
def subsUpdate (s : ReaderState) : Option Json → ReaderState
  | none => s
  | some params =>
    match (params.getKey "topics").bind Json.asArr with
    | some arr => { s with subsLoop := subscribeTopics s.subsLoop arr }
    | none => s

/-- The `timer.set_interval` branch's effect: spawn a timer task when the
params carry a string `id` and an unsigned `millis`. -/
def timerUpdate (s : ReaderState) : Option Json → ReaderState
  | none => s
  | some params =>
    match (params.getKey "id").bind Json.asStr,
          (params.getKey "millis").bind Json.asU64 with
    | some i, some ms => { s with timers := s.timers ++ [⟨i, ms⟩] }
    | _, _ => s

/-- The `Kind::Request` arm of the reader loop: dispatch on the method name
and produce the envelopes written back.  A request without a method falls
through the `if let Some(method)` and produces nothing. -/
def handleRequest (s : ReaderState) (env : Envelope) : ReaderState × List Envelope :=
  match env.method with
  | none => (s, [])
  | some m =>
    if m = "log.write" then
      (logUpdate s env.params, [responseOk env.id])
    else if m = "event.subscribe" then
      (subsUpdate s env.params, [responseOk env.id])
    else if m = "timer.set_interval" then
      (timerUpdate s env.params, [responseOk env.id])
    else
      (s, [responseErr env.id (-32601) ("unknown method " ++ m)])

/-- The `Kind::Response` arm: remove the pending slot for the envelope's id
and send the envelope through it; the send succeeds only if the receiver is
still alive, otherwise the envelope is discarded. -/
def deliverResponse (s : ReaderState) (env : Envelope) : ReaderState :=
  match env.id with
  | none => s
  | some i =>
    match assocLookup s.pending i with
    | none => s
    | some alive =>
      { s with pending := assocRemove s.pending i,
               delivered := if alive then s.delivered ++ [(i, env)] else s.delivered }

/-- Result of one `read_envelope` call inside the loop: `err` covers both
end-of-stream and JSON parse failure. -/
inductive ReadResult where
  | ok (env : Envelope) : ReadResult
  | err : ReadResult

/-- Whether the loop keeps running after a step. -/
inductive LoopCtl where
  | cont : LoopCtl
  | exit : LoopCtl
deriving DecidableEq

/-- Output of one reader-loop iteration. -/
structure StepOut where
  state : ReaderState
  writes : List Envelope
  ctl : LoopCtl
deriving DecidableEq

/-- One iteration of the reader loop spawned by `start_plugin`
(lines 255–378): on a read failure the loop logs and breaks, touching
nothing; otherwise it dispatches on the envelope kind. -/
def readerStep (s : ReaderState) : ReadResult → StepOut
  | .err => ⟨s, [], .exit⟩
  | .ok env =>
    match env.kind with
    | .request =>
      let p := handleRequest s env
      ⟨p.1, p.2, .cont⟩
    | .response => ⟨deliverResponse s env, [], .cont⟩
    | .event => ⟨s, [], .cont⟩

/-- The whole reader loop over a finite prefix of read results. -/
def runReader (s : ReaderState) : List ReadResult → ReaderState × List Envelope
  | [] => (s, [])
  | r :: rest =>
    let o := readerStep s r
    match o.ctl with
    | .exit => (o.state, o.writes)
    | .cont =>
      let p := runReader o.state rest
      (p.1, o.writes ++ p.2)

/-! ### Handshake (`PluginManager::start_plugin`, lines 163–384) -/

/-- Result of running `start_plugin` past a successful spawn. -/
structure StartOut where
  outcome : Except String Unit
  status : PluginStatus
  killed : Bool
  writes : List Envelope
  readerInit : Option ReaderState

/-- `start_plugin` after `cmd.spawn()` succeeded, driven by the sequence of
handshake reads from the child (`none` models a failed read: end-of-stream
or parse error).  `pending0` is the handle's shared pending table.  The
function records the handle's status afterwards, whether any path kills the
child (none does — the function contains no `kill` call, and the `Child` is
not configured with `kill_on_drop`), the envelopes written, and the initial
state of the spawned reader task on success (note line 247 resets
`handle.subscriptions` to a fresh empty set). -/
def startPlugin (pending0 : List (String × Bool)) (reads : List (Option Envelope)) : StartOut :=
  match reads with
  | some e1 :: rest =>
    if e1.kind = .request ∧ e1.method = some "plugin.init" then
      match rest with
      | some e2 :: _ =>
        if e2.kind = .request ∧ e2.method = some "plugin.start" then
          { outcome := .ok (), status := .Running, killed := false,
            writes := [helloEvent, responseOk e1.id, responseOk e2.id, readyEvent],
            readerInit := some
              { pending := pending0, subsLoop := [], handleSubs := [],
                status := .Running, delivered := [], logs := [], timers := [] } }
        else
          { outcome := .error "expected plugin.start request", status := .Discovered,
            killed := false, writes := [helloEvent, responseOk e1.id], readerInit := none }
      | none :: _ =>
        { outcome := .error "plugin closed pipe", status := .Discovered,
          killed := false, writes := [helloEvent, responseOk e1.id], readerInit := none }
      | [] =>
        { outcome := .error "plugin closed pipe", status := .Discovered,
          killed := false, writes := [helloEvent, responseOk e1.id], readerInit := none }
    else
      { outcome := .error "expected plugin.init request", status := .Discovered,
        killed := false, writes := [helloEvent], readerInit := none }
  | none :: _ =>
    { outcome := .error "plugin closed pipe", status := .Discovered,
      killed := false, writes := [helloEvent], readerInit := none }
  | [] =>
    { outcome := .error "plugin closed pipe", status := .Discovered,
      killed := false, writes := [helloEvent], readerInit := none }

/-- The handshake prefixes `start_plugin` accepts: a parsed `plugin.init`
request followed by a parsed `plugin.start` request. -/
def handshakeAccepted : List (Option Envelope) → Bool
  | some e1 :: some e2 :: _ =>
    decide (e1.kind = .request ∧ e1.method = some "plugin.init") &&
    decide (e2.kind = .request ∧ e2.method = some "plugin.start")
  | _ => false

/-! ### The `call` facade (`PluginManager::call`, lines 387–412) -/

/-- A plugin handle as `call` sees it. -/
structure HandleModel where
  status : PluginStatus
  writerPresent : Bool
deriving DecidableEq

/-- The distinct failures `call` can produce.  The enum mirrors the actual
`anyhow` failure sites in the code; no `ClosedPipe` value exists anywhere
in the sources. -/
inductive CallFailure where
  | notFound : CallFailure
  | notRunning : CallFailure
  | recvFailed : CallFailure
  | methodError (message : String) : CallFailure
deriving DecidableEq

/-- Outcome of `call` as seen by the caller. -/
inductive CallOutcome where
  | failure (f : CallFailure) : CallOutcome
  | success (v : Json) : CallOutcome
deriving DecidableEq

/-- The tail of `call` (lines 408–411): turn the awaited response envelope
into the caller's outcome.  `anyhow::bail!(err.message)` surfaces only the
message string; on no error, `resp.result.unwrap_or(Value::Null)`. -/
def finishCall (resp : Envelope) : CallOutcome :=
  match resp.error with
  | some e => .failure (.methodError e.message)
  | none => .success (resp.result.getD .null)

/-- The admission checks at the head of `call` (lines 388–389): the plugin
must exist and its `writer` must be `Some`; these are the only guards — the
status field is not consulted. -/
def callAdmission (plugins : List (String × HandleModel)) (pluginId : String) :
    Except CallFailure HandleModel :=
  match assocLookup plugins pluginId with
  | none => .error .notFound
  | some h => if h.writerPresent then .ok h else .error .notRunning

/-- `call` end to end: admission, then the await of the oneshot receiver.
`response = some resp` models the reader loop delivering `resp` to the
slot; `response = none` models `rx.await` failing because the sender was
dropped. -/
def callRun (plugins : List (String × HandleModel)) (pluginId : String)
    (response : Option Envelope) : CallOutcome :=
  match callAdmission plugins pluginId with
  | .error f => .failure f
  | .ok _ =>
    match response with
    | none => .failure .recvFailed
    | some resp => finishCall resp

/-- Registering the pending slot before the request is written (line 402):
`HashMap::insert` of a live oneshot sender under the fresh id. -/
def registerPending (p : List (String × Bool)) (id : String) : List (String × Bool) :=
  assocInsert p id true

/-- What happens to the pending table when the awaiting caller is dropped
before its response arrives: the oneshot receiver is dropped, flipping the
slot's liveness, but `call` installs no drop guard and nothing removes the
entry — the table is only touched again if a response with that id ever
arrives. -/
def cancelCaller (p : List (String × Bool)) (id : String) : List (String × Bool) :=
  p.map (fun e => if e.1 = id then (e.1, false) else e)

/-! ### Timer service (`services/timer.rs`) -/

/-- The `timer.tick` event emitted each interval tick. -/
def tickEvent (id : String) (nowMs : Nat) : Envelope :=
  { id := none, kind := .event, method := none, params := none, result := none,
    error := none, topic := some "timer.tick",
    payload := some (.obj [("id", .str id), ("now_ms", .num nowMs)]) }

/-- The task body spawned by `spawn_timer`, observed for `n` ticks with the
wall clock `clock` (`clock i` is the `now_ms` read before the i-th event).
`tokio::time::interval` asserts a non-zero period and panics with
"`period` must be non-zero" otherwise (documented and asserted in tokio);
the panic aborts the spawned task before any tick, modelled as
`Except.error`. -/
def timerTaskWrites (p : TimerParams) (clock : Nat → Nat) (n : Nat) :
    Except String (List Envelope) :=
  if p.millis = 0 then .error "period must be non-zero"
  else .ok ((List.range n).map (fun i => tickEvent p.id (clock i)))

/-! ### Concrete instances used in the theorems below -/

/-- A plain request envelope (the round-trip test vector of
`plugin_api/src/lib.rs`). -/
def sampleRequestEnv : Envelope :=
  { id := some "1", kind := .request, method := some "test",
    params := some (.obj [("a", .num 1)]), result := none, error := none,
    topic := none, payload := none }

/-- A response whose `result` field is `Some(Value::Null)`. -/
def envResultNull : Envelope :=
  { id := some "r", kind := .response, method := none, params := none,
    result := some .null, error := none, topic := none, payload := none }

/-- A request envelope whose `method` field is absent. -/
def methodlessRequest : Envelope :=
  { id := some "x", kind := .request, method := none, params := none,
    result := none, error := none, topic := none, payload := none }

/-- The unknown-method scenario of the spec: request `id:"r"`,
`method:"nope"`. -/
def nopeRequest : Envelope :=
  { id := some "r", kind := .request, method := some "nope", params := none,
    result := none, error := none, topic := none, payload := none }

/-- A `plugin.init` request with id `"h1"`. -/
def initRequest : Envelope :=
  { id := some "h1", kind := .request, method := some "plugin.init",
    params := some (.obj [("metadata", .obj [])]), result := none,
    error := none, topic := none, payload := none }

/-- A `plugin.start` request with id `"h2"`. -/
def startRequest : Envelope :=
  { id := some "h2", kind := .request, method := some "plugin.start",
    params := some (.obj []), result := none, error := none, topic := none,
    payload := none }

/-- An `event.subscribe` request for the topic `timer.tick`. -/
def subscribeTickRequest : Envelope :=
  { id := some "s1", kind := .request, method := some "event.subscribe",
    params := some (.obj [("topics", .arr [.str "timer.tick"])]),
    result := none, error := none, topic := none, payload := none }

/-- A `timer.set_interval` request with `millis = 0`. -/
def timerZeroRequest : Envelope :=
  { id := some "q", kind := .request, method := some "timer.set_interval",
    params := some (.obj [("id", .str "t"), ("millis", .num 0)]),
    result := none, error := none, topic := none, payload := none }

/-- A response envelope with id `"a"` carrying a result. -/
def lateResponse : Envelope :=
  { id := some "a", kind := .response, method := none, params := none,
    result := some (.bool true), error := none, topic := none, payload := none }

/-- A response carrying an error with code 1. -/
def respErrCode1 : Envelope :=
  { id := some "c", kind := .response, method := none, params := none,
    result := none, error := some ⟨1, "boom"⟩, topic := none, payload := none }

/-- A response carrying an error with code 2 and the same message. -/
def respErrCode2 : Envelope :=
  { id := some "c", kind := .response, method := none, params := none,
    result := none, error := some ⟨2, "boom"⟩, topic := none, payload := none }

/-- The reader-loop state of a running plugin with one outstanding pending
slot (request id `"a"`, caller alive and awaiting). -/
def oneSlotState : ReaderState :=
  { pending := [("a", true)], subsLoop := [], handleSubs := [],
    status := .Running, delivered := [], logs := [], timers := [] }

/-- A handle as `call` sees it after a successful start: the writer half is
retained in the handle (line 381) and never cleared afterwards. -/
def runningHandle : HandleModel := { status := .Running, writerPresent := true }

/-- The reader-loop state handed to the reader task right after a clean
handshake with an empty pending table. -/
def postStartState : ReaderState :=
  { pending := [], subsLoop := [], handleSubs := [], status := .Running,
    delivered := [], logs := [], timers := [] }

/-- The reader-loop state after the caller awaiting request `"a"` was
dropped: the slot is still present, its receiver dead. -/
def cancelledSlotState : ReaderState :=
  { pending := [("a", false)], subsLoop := [], handleSubs := [],
    status := .Running, delivered := [], logs := [], timers := [] }

/-- A manifest with id `"p"` named `"A"`. -/
def manifestA : PluginManifest :=
  { name := "A", id := "p", version := "0.1", apiVersion := "1",
    execName := "a_bin", permissions := [] }

/-- A different manifest with the same id `"p"`, named `"B"`. -/
def manifestB : PluginManifest :=
  { name := "B", id := "p", version := "0.2", apiVersion := "1",
    execName := "b_bin", permissions := [] }

/-! Round-trip lemmas for the codec. -/

theorem Json.isNull_eq_false (v : Json) (h : v ≠ .null) : v.isNull = false := by
  cases v <;> first | exact absurd rfl h | rfl

theorem lookup_id (e : Envelope) :
    Json.lookupField (envelopeFields e) "id" = some (encodeOptStr e.id) := rfl

theorem lookup_kind (e : Envelope) :
    Json.lookupField (envelopeFields e) "kind" = some (encodeKind e.kind) := rfl

theorem lookup_method (e : Envelope) :
    Json.lookupField (envelopeFields e) "method" = some (encodeOptStr e.method) := rfl

theorem lookup_params (e : Envelope) :
    Json.lookupField (envelopeFields e) "params" = some (encodeOptVal e.params) := rfl

theorem lookup_result (e : Envelope) :
    Json.lookupField (envelopeFields e) "result" = some (encodeOptVal e.result) := rfl

theorem lookup_error (e : Envelope) :
    Json.lookupField (envelopeFields e) "error" = some (encodeOptErr e.error) := rfl

theorem lookup_topic (e : Envelope) :
    Json.lookupField (envelopeFields e) "topic" = some (encodeOptStr e.topic) := rfl

theorem lookup_payload (e : Envelope) :
    Json.lookupField (envelopeFields e) "payload" = some (encodeOptVal e.payload) := rfl

theorem decodeOptStrVal_encode (o : Option String) :
    decodeOptStrVal (some (encodeOptStr o)) = some o := by cases o <;> rfl

theorem decodeKindVal_encode (k : Kind) :
    decodeKindVal (some (encodeKind k)) = some k := by cases k <;> rfl

theorem decodeOptErrVal_encode (o : Option RpcError) :
    decodeOptErrVal (some (encodeOptErr o)) = some o := by
  rcases o with _ | ⟨c, m⟩ <;> rfl

theorem decodeOptValVal_encode (o : Option Json) (h : o ≠ some .null) :
    decodeOptValVal (some (encodeOptVal o)) = o := by
  rcases o with _ | v
  · rfl
  · have hv : v ≠ .null := fun hh => h (by rw [hh])
    simp [decodeOptValVal, encodeOptVal, Json.isNull_eq_false v hv]
/-- Claim C8 (counterexample). -/
theorem roundtrip_some_null_counterexample :
    deserializeEnvelope (serializeEnvelope envResultNull) ≠ some envResultNull := by decide

/-- Claim C8 (amended). -/
theorem roundtrip_modulo_some_null (e : Envelope)
    (hp : e.params ≠ some .null) (hr : e.result ≠ some .null)
    (hl : e.payload ≠ some .null) :
    deserializeEnvelope (serializeEnvelope e) = some e := by
  show deserializeEnvelope (.obj (envelopeFields e)) = some e
  simp only [deserializeEnvelope, lookup_id, lookup_kind, lookup_method, lookup_params,
    lookup_result, lookup_error, lookup_topic, lookup_payload, decodeOptStrVal_encode,
    decodeKindVal_encode, decodeOptErrVal_encode, decodeOptValVal_encode _ hp,
    decodeOptValVal_encode _ hr, decodeOptValVal_encode _ hl]
  rfl

/-- Witness for the amended C8 round-trip. -/
theorem roundtrip_modulo_some_null_witness :
    (sampleRequestEnv.params ≠ some Json.null ∧
     sampleRequestEnv.result ≠ some Json.null ∧
     sampleRequestEnv.payload ≠ some Json.null) ∧
    deserializeEnvelope (serializeEnvelope sampleRequestEnv) = some sampleRequestEnv :=
  ⟨⟨by decide, by decide, by decide⟩,
   roundtrip_modulo_some_null sampleRequestEnv (by decide) (by decide) (by decide)⟩

/-- Claim C2 (counterexample): a request without a method gets no response. -/
theorem request_without_method_no_response :
    (readerStep oneSlotState (.ok methodlessRequest)).writes = [] ∧
    ¬ ∃ w, (readerStep oneSlotState (.ok methodlessRequest)).writes = [w] := by
  refine ⟨rfl, ?_⟩
  rintro ⟨w, hw⟩
  have h0 : (readerStep oneSlotState (.ok methodlessRequest)).writes = [] := rfl
  rw [h0] at hw
  exact List.noConfusion hw

/-- Claim C2 (amended): requests with a method get exactly one response
with the same id. -/
theorem request_with_method_one_response (s : ReaderState) (env : Envelope) (m : String)
    (hk : env.kind = .request) (hm : env.method = some m) :
    ∃ w, (readerStep s (.ok env)).writes = [w] ∧ w.kind = .response ∧ w.id = env.id := by
  have hstep : (readerStep s (.ok env)).writes = (handleRequest s env).2 := by
    simp [readerStep, hk]
  rw [hstep]
  unfold handleRequest
  rw [hm]
  dsimp only
  split_ifs <;> exact ⟨_, rfl, rfl, rfl⟩

/-- Witness for the amended C2. -/
theorem request_with_method_one_response_witness :
    ∃ w, (readerStep oneSlotState (.ok nopeRequest)).writes = [w] ∧
      w.kind = .response ∧ w.id = nopeRequest.id :=
  request_with_method_one_response oneSlotState nopeRequest "nope" rfl rfl

/-- Claim C3 (confirmed): unknown methods get a −32601 error response with
the same id and the loop continues. -/
theorem unknown_method_error_response (s : ReaderState) (env : Envelope) (m : String)
    (hk : env.kind = .request) (hm : env.method = some m)
    (h1 : m ≠ "log.write") (h2 : m ≠ "event.subscribe")
    (h3 : m ≠ "timer.set_interval") :
    (readerStep s (.ok env)).writes =
      [responseErr env.id (-32601) ("unknown method " ++ m)] ∧
    (responseErr env.id (-32601) ("unknown method " ++ m)).error =
      some ⟨-32601, "unknown method " ++ m⟩ ∧
    (readerStep s (.ok env)).state = s ∧
    (readerStep s (.ok env)).ctl = .cont := by
  have hreq : handleRequest s env =
      (s, [responseErr env.id (-32601) ("unknown method " ++ m)]) := by
    unfold handleRequest
    rw [hm]
    dsimp only
    rw [if_neg h1, if_neg h2, if_neg h3]
  have hstep : readerStep s (.ok env) =
      ⟨s, [responseErr env.id (-32601) ("unknown method " ++ m)], .cont⟩ := by
    simp [readerStep, hk, hreq]
  rw [hstep]
  exact ⟨rfl, rfl, rfl, rfl⟩

/-- Witness for C3 at the spec's literal scenario. -/
theorem unknown_method_error_response_witness :
    (readerStep oneSlotState (.ok nopeRequest)).writes =
      [responseErr nopeRequest.id (-32601) ("unknown method " ++ "nope")] ∧
    (responseErr nopeRequest.id (-32601) ("unknown method " ++ "nope")).error =
      some ⟨-32601, "unknown method " ++ "nope"⟩ ∧
    (readerStep oneSlotState (.ok nopeRequest)).state = oneSlotState ∧
    (readerStep oneSlotState (.ok nopeRequest)).ctl = .cont :=
  unknown_method_error_response oneSlotState nopeRequest "nope" rfl rfl
    (by decide) (by decide) (by decide)

/-- Claim C1 (counterexample). -/
theorem reader_death_counterexample :
    readerStep oneSlotState .err = ⟨oneSlotState, [], .exit⟩ ∧
    assocLookup (readerStep oneSlotState .err).state.pending "a" = some true ∧
    (readerStep oneSlotState .err).state.delivered = [] ∧
    (readerStep oneSlotState .err).state.status = .Running ∧
    callAdmission [("p", runningHandle)] "p" = .ok runningHandle :=
  ⟨rfl, by decide, rfl, rfl, rfl⟩

/-- Claim C1 (amended). -/
theorem reader_death_amended (s : ReaderState) (plugins : List (String × HandleModel))
    (pid : String) (h : HandleModel)
    (hfind : assocLookup plugins pid = some h) (hw : h.writerPresent = true) :
    readerStep s .err = ⟨s, [], .exit⟩ ∧
    callAdmission plugins pid = .ok h := by
  refine ⟨rfl, ?_⟩
  simp [callAdmission, hfind, hw]

/-- Witness for the amended C1. -/
theorem reader_death_amended_witness :
    readerStep oneSlotState .err = ⟨oneSlotState, [], .exit⟩ ∧
    callAdmission [("p", runningHandle)] "p" = .ok runningHandle :=
  reader_death_amended oneSlotState [("p", runningHandle)] "p" runningHandle
    (by decide) rfl

/-- Claim C4 (counterexample). -/
theorem handshake_failure_counterexample :
    (startPlugin [] [some readyEvent]).outcome = .error "expected plugin.init request" ∧
    (startPlugin [] [some readyEvent]).killed = false ∧
    (startPlugin [] [some readyEvent]).status = .Discovered :=
  ⟨rfl, rfl, rfl⟩

/-- Claim C4 (amended). -/
theorem handshake_failure_amended (pending0 : List (String × Bool))
    (reads : List (Option Envelope)) (h : handshakeAccepted reads = false) :
    (∃ msg, (startPlugin pending0 reads).outcome = .error msg) ∧
    (startPlugin pending0 reads).killed = false ∧
    (startPlugin pending0 reads).status = .Discovered := by
  rcases reads with _ | ⟨oe1, rest⟩
  · exact ⟨⟨"plugin closed pipe", rfl⟩, rfl, rfl⟩
  rcases oe1 with _ | e1
  · exact ⟨⟨"plugin closed pipe", rfl⟩, rfl, rfl⟩
  by_cases h1 : e1.kind = .request ∧ e1.method = some "plugin.init"
  case neg =>
    have hsp : startPlugin pending0 (some e1 :: rest) =
        { outcome := .error "expected plugin.init request", status := .Discovered,
          killed := false, writes := [helloEvent], readerInit := none } := by
      unfold startPlugin
      dsimp only
      rw [if_neg h1]
    rw [hsp]
    exact ⟨⟨"expected plugin.init request", rfl⟩, rfl, rfl⟩
  case pos =>
    rcases rest with _ | ⟨oe2, rest2⟩
    · have hsp : startPlugin pending0 [some e1] =
          { outcome := .error "plugin closed pipe", status := .Discovered,
            killed := false, writes := [helloEvent, responseOk e1.id],
            readerInit := none } := by
        unfold startPlugin
        dsimp only
        rw [if_pos h1]
      rw [hsp]
      exact ⟨⟨"plugin closed pipe", rfl⟩, rfl, rfl⟩
    rcases oe2 with _ | e2
    · have hsp : startPlugin pending0 (some e1 :: none :: rest2) =
          { outcome := .error "plugin closed pipe", status := .Discovered,
            killed := false, writes := [helloEvent, responseOk e1.id],
            readerInit := none } := by
        unfold startPlugin
        dsimp only
        rw [if_pos h1]
      rw [hsp]
      exact ⟨⟨"plugin closed pipe", rfl⟩, rfl, rfl⟩
    by_cases h2 : e2.kind = .request ∧ e2.method = some "plugin.start"
    case pos =>
      exfalso
      have hacc : handshakeAccepted (some e1 :: some e2 :: rest2) = true := by
        simp [handshakeAccepted, h1, h2]
      rw [h] at hacc
      exact Bool.noConfusion hacc
    case neg =>
      have hsp : startPlugin pending0 (some e1 :: some e2 :: rest2) =
          { outcome := .error "expected plugin.start request", status := .Discovered,
            killed := false, writes := [helloEvent, responseOk e1.id],
            readerInit := none } := by
        unfold startPlugin
        dsimp only
        rw [if_pos h1, if_neg h2]
      rw [hsp]
      exact ⟨⟨"expected plugin.start request", rfl⟩, rfl, rfl⟩

/-- Witness for the amended C4. -/
theorem handshake_failure_amended_witness :
    (handshakeAccepted [some readyEvent] = false) ∧
    ((∃ msg, (startPlugin [] [some readyEvent]).outcome = .error msg) ∧
     (startPlugin [] [some readyEvent]).killed = false ∧
     (startPlugin [] [some readyEvent]).status = .Discovered) :=
  ⟨by decide, handshake_failure_amended [] [some readyEvent] (by decide)⟩

/-- Claim C5 (counterexample). -/
theorem duplicate_id_counterexample :
    discover [.ok manifestA, .ok manifestB] = .ok [("p", manifestB)] ∧
    manifestA ≠ manifestB :=
  ⟨rfl, by decide⟩

/-- Claim C5 (amended). -/
theorem duplicate_id_amended (m1 m2 : PluginManifest) (h : m1.id = m2.id) :
    discover [.ok m1, .ok m2] = .ok [(m2.id, m2)] := by
  unfold discover
  simp only [discoverFrom, assocInsert, assocRemove, List.filter_nil, List.nil_append,
    List.filter_cons, h, bne_self_eq_false, List.filter_nil]
  rfl

/-- Witness for the amended C5. -/
theorem duplicate_id_amended_witness :
    (manifestA.id = manifestB.id) ∧
    discover [.ok manifestA, .ok manifestB] = .ok [(manifestB.id, manifestB)] :=
  ⟨rfl, duplicate_id_amended manifestA manifestB rfl⟩

/-- Claim C6 (counterexample). -/
theorem call_error_code_counterexample :
    finishCall respErrCode1 = finishCall respErrCode2 ∧
    respErrCode1.error ≠ respErrCode2.error := by decide

/-- Claim C6 (amended). -/
theorem call_outcome_amended (plugins : List (String × HandleModel))
    (pid : String) (hm : HandleModel) (resp : Envelope)
    (hfind : assocLookup plugins pid = some hm) (hw : hm.writerPresent = true) :
    (∀ err, resp.error = some err →
      callRun plugins pid (some resp) = .failure (.methodError err.message)) ∧
    (∀ v, resp.error = none → resp.result = some v →
      callRun plugins pid (some resp) = .success v) ∧
    (resp.error = none → resp.result = none →
      callRun plugins pid (some resp) = .success .null) := by
  have hadm : callAdmission plugins pid = .ok hm := by
    simp [callAdmission, hfind, hw]
  refine ⟨?_, ?_, ?_⟩ <;> intros <;> simp_all [callRun, finishCall]

/-- Witness for the amended C6. -/
theorem call_outcome_amended_witness :
    callRun [("p", runningHandle)] "p" (some respErrCode1) =
      .failure (.methodError "boom") :=
  (call_outcome_amended [("p", runningHandle)] "p" runningHandle respErrCode1
    rfl rfl).1 ⟨1, "boom"⟩ rfl

theorem assocLookup_append {β : Type} (xs ys : List (String × β)) (key : String) :
    assocLookup (xs ++ ys) key =
      (match assocLookup xs key with
       | some v => some v
       | none => assocLookup ys key) := by
  induction xs with
  | nil => rfl
  | cons e rest ih =>
    rcases e with ⟨k, v⟩
    by_cases hk : k = key
    · simp [assocLookup, hk]
    · simp [assocLookup, hk, ih]

theorem assocLookup_assocRemove_self {β : Type} (p : List (String × β)) (key : String) :
    assocLookup (assocRemove p key) key = none := by
  induction p with
  | nil => rfl
  | cons e rest ih =>
    rcases e with ⟨k, v⟩
    by_cases hk : k = key
    · simpa [assocRemove, List.filter_cons, hk] using ih
    · simpa [assocRemove, List.filter_cons, hk, assocLookup] using ih

theorem assocLookup_cancelCaller_of_none (p : List (String × Bool)) (i : String)
    (h : assocLookup p i = none) : assocLookup (cancelCaller p i) i = none := by
  induction p with
  | nil => rfl
  | cons e rest ih =>
    rcases e with ⟨k, v⟩
    by_cases hk : k = i
    · simp [assocLookup, hk] at h
    · simp only [assocLookup, if_neg hk] at h
      simp only [cancelCaller, List.map_cons] at ih ⊢
      rw [if_neg (by simpa using hk)]
      simpa [assocLookup, hk] using ih h

theorem cancel_register_lookup (p : List (String × Bool)) (i : String) :
    assocLookup (cancelCaller (registerPending p i) i) i = some false := by
  unfold registerPending assocInsert
  rw [show cancelCaller (assocRemove p i ++ [(i, true)]) i =
        cancelCaller (assocRemove p i) i ++ cancelCaller [(i, true)] i from
      List.map_append _ _ _]
  rw [assocLookup_append]
  rw [assocLookup_cancelCaller_of_none _ _ (assocLookup_assocRemove_self p i)]
  dsimp only [cancelCaller, List.map_cons, List.map_nil]
  rw [if_pos rfl]
  simp [assocLookup]

/-- Claim C7 (counterexample). -/
theorem cancellation_counterexample :
    assocLookup (cancelCaller (registerPending [] "a") "a") "a" = some false ∧
    assocLookup (cancelCaller (registerPending [] "a") "a") "a" ≠ none := by decide

/-- Claim C7 (amended). -/
theorem cancellation_amended (p : List (String × Bool)) (i : String)
    (s : ReaderState) (resp : Envelope)
    (hpend : s.pending = cancelCaller (registerPending p i) i)
    (hkind : resp.kind = .response) (hid : resp.id = some i) :
    assocLookup s.pending i = some false ∧
    assocLookup ((readerStep s (.ok resp)).state.pending) i = none ∧
    (readerStep s (.ok resp)).state.delivered = s.delivered := by
  have hlook : assocLookup s.pending i = some false := by
    rw [hpend]; exact cancel_register_lookup p i
  have hstep : readerStep s (.ok resp) = ⟨deliverResponse s resp, [], .cont⟩ := by
    simp [readerStep, hkind]
  have hdel : deliverResponse s resp = { s with pending := assocRemove s.pending i } := by
    unfold deliverResponse
    rw [hid]
    dsimp only
    rw [hlook]
    simp
  refine ⟨hlook, ?_, ?_⟩
  · rw [hstep]
    dsimp only
    rw [hdel]
    exact assocLookup_assocRemove_self _ _
  · rw [hstep]
    dsimp only
    rw [hdel]

/-- Witness for the amended C7. -/
theorem cancellation_amended_witness :
    assocLookup cancelledSlotState.pending "a" = some false ∧
    assocLookup ((readerStep cancelledSlotState (.ok lateResponse)).state.pending) "a" = none ∧
    (readerStep cancelledSlotState (.ok lateResponse)).state.delivered =
      cancelledSlotState.delivered :=
  cancellation_amended [] "a" cancelledSlotState lateResponse rfl rfl rfl

theorem logUpdate_handleSubs (s : ReaderState) (p : Option Json) :
    (logUpdate s p).handleSubs = s.handleSubs := by
  unfold logUpdate
  split
  · rfl
  · split <;> rfl

theorem subsUpdate_handleSubs (s : ReaderState) (p : Option Json) :
    (subsUpdate s p).handleSubs = s.handleSubs := by
  unfold subsUpdate
  split
  · rfl
  · split <;> rfl

theorem timerUpdate_handleSubs (s : ReaderState) (p : Option Json) :
    (timerUpdate s p).handleSubs = s.handleSubs := by
  unfold timerUpdate
  split
  · rfl
  · split <;> rfl

theorem handleRequest_handleSubs (s : ReaderState) (env : Envelope) :
    (handleRequest s env).1.handleSubs = s.handleSubs := by
  unfold handleRequest
  cases env.method with
  | none => rfl
  | some m =>
    dsimp only
    split_ifs <;>
      simp [logUpdate_handleSubs, subsUpdate_handleSubs, timerUpdate_handleSubs]

theorem deliverResponse_handleSubs (s : ReaderState) (env : Envelope) :
    (deliverResponse s env).handleSubs = s.handleSubs := by
  unfold deliverResponse
  cases env.id with
  | none => rfl
  | some i =>
    dsimp only
    split <;> rfl

theorem readerStep_handleSubs (s : ReaderState) (r : ReadResult) :
    (readerStep s r).state.handleSubs = s.handleSubs := by
  cases r with
  | err => rfl
  | ok env =>
    cases hk : env.kind with
    | request => simp [readerStep, hk, handleRequest_handleSubs]
    | response => simp [readerStep, hk, deliverResponse_handleSubs]
    | event => simp [readerStep, hk]

theorem runReader_handleSubs (trace : List ReadResult) (s : ReaderState) :
    (runReader s trace).1.handleSubs = s.handleSubs := by
  induction trace generalizing s with
  | nil => rfl
  | cons r rest ih =>
    unfold runReader
    cases hc : (readerStep s r).ctl with
    | exit => simp [hc, readerStep_handleSubs]
    | cont => simp [hc, ih, readerStep_handleSubs]

/-- Claim C9 (confirmed). -/
theorem handle_subscriptions_stay_empty (pending0 : List (String × Bool))
    (reads : List (Option Envelope)) (rs : ReaderState)
    (h : (startPlugin pending0 reads).readerInit = some rs)
    (trace : List ReadResult) :
    rs.handleSubs = [] ∧
    (runReader rs trace).1.handleSubs = [] ∧
    (∀ (s : ReaderState) (env : Envelope) (topics : List Json),
      env.kind = .request → env.method = some "event.subscribe" →
      env.params = some (.obj [("topics", .arr topics)]) →
      (readerStep s (.ok env)).state.subsLoop = subscribeTopics s.subsLoop topics ∧
      (readerStep s (.ok env)).state.handleSubs = s.handleSubs) := by
  have hempty : rs.handleSubs = [] := by
    rcases reads with _ | ⟨oe1, rest⟩
    · exact absurd h (by simp [startPlugin])
    rcases oe1 with _ | e1
    · exact absurd h (by simp [startPlugin])
    by_cases h1 : e1.kind = .request ∧ e1.method = some "plugin.init"
    case neg =>
      refine absurd h ?_
      unfold startPlugin
      dsimp only
      rw [if_neg h1]
      simp
    case pos =>
      rcases rest with _ | ⟨oe2, rest2⟩
      · refine absurd h ?_
        unfold startPlugin
        dsimp only
        rw [if_pos h1]
        simp
      rcases oe2 with _ | e2
      · refine absurd h ?_
        unfold startPlugin
        dsimp only
        rw [if_pos h1]
        simp
      by_cases h2 : e2.kind = .request ∧ e2.method = some "plugin.start"
      case neg =>
        refine absurd h ?_
        unfold startPlugin
        dsimp only
        rw [if_pos h1, if_neg h2]
        simp
      case pos =>
        have hsp : (startPlugin pending0 (some e1 :: some e2 :: rest2)).readerInit =
            some { pending := pending0, subsLoop := [], handleSubs := [],
                   status := .Running, delivered := [], logs := [], timers := [] } := by
          unfold startPlugin
          dsimp only
          rw [if_pos h1, if_pos h2]
        rw [hsp] at h
        rw [← Option.some.inj h]
  refine ⟨hempty, ?_, ?_⟩
  · rw [runReader_handleSubs]
    exact hempty
  · intro s env topics hk hm hp
    refine ⟨?_, readerStep_handleSubs s (.ok env)⟩
    simp [readerStep, hk, handleRequest, hm, hp, subsUpdate, Json.getKey,
      Json.lookupField, Json.asArr]

/-- Witness for C9. -/
theorem handle_subscriptions_stay_empty_witness :
    ((startPlugin [] [some initRequest, some startRequest]).readerInit =
      some postStartState) ∧
    postStartState.handleSubs = [] ∧
    (runReader postStartState [.ok subscribeTickRequest]).1.handleSubs = [] :=
  ⟨by decide,
   (handle_subscriptions_stay_empty [] [some initRequest, some startRequest]
     postStartState (by decide) [.ok subscribeTickRequest]).1,
   (handle_subscriptions_stay_empty [] [some initRequest, some startRequest]
     postStartState (by decide) [.ok subscribeTickRequest]).2.1⟩

/-- Claim C10 (confirmed). -/
theorem timer_zero_period (s : ReaderState) (clock : Nat → Nat) (n : Nat) :
    (readerStep s (.ok timerZeroRequest)).writes = [responseOk (some "q")] ∧
    (readerStep s (.ok timerZeroRequest)).state.timers = s.timers ++ [⟨"t", 0⟩] ∧
    timerTaskWrites ⟨"t", 0⟩ clock n = .error "period must be non-zero" := by
  refine ⟨?_, ?_, rfl⟩ <;>
    simp [readerStep, timerZeroRequest, handleRequest, timerUpdate, Json.getKey,
      Json.lookupField, Json.asStr, Json.asU64, responseOk]
